import Mathlib

/-!
Verification development for the arxiv2epub pipeline script (`arxiv2epub.py`).

The script is modelled shallowly: Python strings become Lean `String`
(with character-level helpers on `List Char` mirroring the Python string
methods used by the code), the filesystem and HTTP side effects of
`download_latex_from_arxiv` become an explicit event trace, the interactive
prompt of `ensure_latex_element_exists` becomes an explicit integer input,
and `re.search` with the script's one title pattern is modelled by an
executable leftmost-then-greedy matcher.
-/

namespace Arxiv2Epub

/-- Python exception kinds raised by the script. -/
inductive PyError where
  | valueError
  | typeError
  | genericException
  deriving DecidableEq, Repr

/-- Python `s.startswith(p)`: `p` is an initial segment of `s`. -/
def pyStartsWith (s p : String) : Bool :=
  decide (s.data.take p.data.length = p.data)

/-- Python `s.endswith(p)`: `p` is a final segment of `s`. -/
def pyEndsWith (s p : String) : Bool :=
  decide (s.data.reverse.take p.data.length = p.data.reverse)

/-- Python `s.split(sep)` for a one-character separator, on character lists:
splits at every occurrence of `sep`, keeping empty pieces. -/
def splitChar (sep : Char) : List Char → List (List Char)
  | [] => [[]]
  | c :: cs =>
    let r := splitChar sep cs
    if c = sep then [] :: r else (c :: r.headD []) :: r.tail

/-- Python `sub in s` substring containment, on character lists. -/
def containsSub (sub : List Char) : List Char → Bool
  | [] => decide (sub = [])
  | c :: cs => decide ((c :: cs).take sub.length = sub) || containsSub sub cs

/-- Python `s.replace(pat, rep)` (all non-overlapping occurrences, left to
right), with an explicit fuel argument equal to the length of `s`. -/
def replaceAllAux : Nat → List Char → List Char → List Char → List Char
  | 0, s, _, _ => s
  | fuel + 1, s, pat, rep =>
    match s with
    | [] => []
    | c :: cs =>
      if pat ≠ [] ∧ s.take pat.length = pat then
        rep ++ replaceAllAux fuel (s.drop pat.length) pat rep
      else
        c :: replaceAllAux fuel cs pat rep

/-- Python `s.replace(pat, rep)` on strings. -/
def pyReplace (s pat rep : String) : String :=
  ⟨replaceAllAux s.data.length s.data pat.data rep.data⟩

/-- Characters removed by Python `s.strip()` (ASCII whitespace). -/
def isPySpace (c : Char) : Bool :=
  c == ' ' || c == '\t' || c == '\n' || c == '\r' || c == '\x0b' || c == '\x0c'

/-- Python `s.strip()`: drop whitespace from both ends. -/
def pyStrip (s : String) : String :=
  ⟨((s.data.dropWhile isPySpace).reverse.dropWhile isPySpace).reverse⟩

/-! ## Fetcher: `download_latex_from_arxiv` -/

/-- The URL guard used by `download_latex_from_arxiv`. -/
def arxivAbsStart : String := "https://arxiv.org/abs/"

/-- The paper identifier `arxiv_url.split("/")[-1]`. -/
def arxivPaperId (url : String) : String :=
  ⟨(splitChar '/' url.data).getLastD []⟩

/-- The derived source endpoint `https://arxiv.org/e-print/{paper_id}`. -/
def ePrintUrl (url : String) : String :=
  "https://arxiv.org/e-print/" ++ arxivPaperId url

/-- An HTTP response as observed by the script: status code and body bytes. -/
structure HttpResponse where
  status : Nat
  content : List Nat
  deriving DecidableEq, Repr

/-- Filesystem and network side effects of the fetch stage, in program order. -/
inductive Event where
  | mkdir (dir : String)
  | httpGet (url : String)
  | writeFile (path : String)
  deriving DecidableEq, Repr

/-- Model of `download_latex_from_arxiv(arxiv_url, output_dir)`.  The HTTP
client is an oracle from URL to response.  Returns the Python result
(`output_path`, or the raised exception) paired with the ordered trace of
side effects carried out. -/
def download_latex_from_arxiv (arxiv_url : String) (http : String → HttpResponse)
    (output_dir : String) : Except PyError String × List Event :=
  if ¬ (pyStartsWith arxiv_url arxivAbsStart = true) then
    (Except.error PyError.valueError, [])
  else
    let paper_id := arxivPaperId arxiv_url
    let source_url := "https://arxiv.org/e-print/" ++ paper_id
    let output_path := output_dir ++ "/" ++ paper_id ++ ".tar.gz"
    let response := http source_url
    if response.status = 200 then
      (Except.ok output_path,
        [Event.mkdir output_dir, Event.httpGet source_url, Event.writeFile output_path])
    else
      (Except.error PyError.genericException,
        [Event.mkdir output_dir, Event.httpGet source_url])

/-! ## Metadata extractor: `get_title` -/

/-- The literal part `title\x7b` of the pattern `title\x7b(.+)[\\\x7d\x7b]`. -/
def titleLit : List Char := ['t', 'i', 't', 'l', 'e', '\x7b']

/-- Membership in the character class `[\\\x7d\x7b]` of the title pattern. -/
def isClassChar (c : Char) : Bool :=
  c == '\\' || c == '\x7d' || c == '\x7b'

/-- The greatest index `j ≥ 1` of `run` holding a class character: the greedy
choice for the end of the `(.+)` group, given that `.` cannot cross a
newline and the group needs at least one character. -/
def largestClassIdx (run : List Char) : Option Nat :=
  ((List.range run.length).filter
    (fun j => decide (1 ≤ j) && isClassChar (run.getD j ' '))).getLast?

/-- Match the title pattern at the start of `s`, returning group 1:
the literal `title\x7b`, then a greedy non-empty run of non-newline
characters, then one class character. -/
def matchTitleAt (s : List Char) : Option (List Char) :=
  if s.take titleLit.length = titleLit then
    let rest := s.drop titleLit.length
    let run := rest.takeWhile (fun c => !(c == '\n'))
    match largestClassIdx run with
    | some j => some (run.take j)
    | none => none
  else none

/-- Model of `re.search(rg, content)` for the title pattern: the leftmost
start position wins, and at that position the group is chosen greedily. -/
def reSearchTitle : List Char → Option (List Char)
  | [] => none
  | c :: cs =>
    match matchTitleAt (c :: cs) with
    | some g => some g
    | none => reSearchTitle cs

/-- Model of `get_title(latex_file)` where `content` is the text read from
the file: the first match's stripped group, or the file path if no match. -/
def get_title (latex_file : String) (content : String) : String :=
  match reSearchTitle content.data with
  | some g => pyStrip (String.mk g)
  | none => latex_file

/-! ## File selector: `ensure_latex_element_exists` -/

/-- Model of `ensure_latex_element_exists(tex_files, element)`.  `user_input`
is the integer the user types at the prompt (the value of
`int(input(...))`).  Returns the Python result paired with the lines printed
to standard output.  In the found branch the function evaluates the f-string
argument of its log call, and that expression indexes the list `tex_files`
with the string `element`, which raises `TypeError` before the `return`
statement runs. -/
def ensure_latex_element_exists (tex_files : List String) (element : String)
    (user_input : Int) : Except PyError String × List String :=
  if element ∈ tex_files then
    (Except.error PyError.typeError, [])
  else
    let prompt := "LaTeX element not found in any file." :: "Available .tex files:" ::
      (tex_files.enum.map fun p => toString p.1 ++ ": " ++ p.2)
    if user_input < 0 ∨ (tex_files.length : Int) ≤ user_input then
      (Except.error PyError.valueError, prompt)
    else
      (Except.ok (tex_files.getD user_input.toNat ""), prompt)

/-! ## Cleanup: `delete_non_epub_files` -/

/-- A directory entry: file name and whether it is a regular file. -/
structure DirEntry where
  name : String
  regularFile : Bool
  deriving DecidableEq, Repr

/-- The loop body of `delete_non_epub_files`: each entry that is a regular
file and does not end in `.epub` is removed; every other entry is kept. -/
def cleanupLoop : List DirEntry → List DirEntry
  | [] => []
  | e :: rest =>
    if pyEndsWith e.name ".epub" = false ∧ e.regularFile = true then cleanupLoop rest
    else e :: cleanupLoop rest

/-- Model of `delete_non_epub_files(output_dir)`: returns the directory
contents after the call; when the directory does not exist the function only
logs and returns. -/
def delete_non_epub_files (dirIsDir : Bool) (entries : List DirEntry) : List DirEntry :=
  if dirIsDir then cleanupLoop entries else entries

/-! ## Output path templating in `main` -/

/-- The output-path step of `main`: when the template contains `$1`,
substitute the extracted title for every occurrence of `$1`. -/
def resolveOutputFile (output_file title : String) : String :=
  if containsSub "$1".data output_file.data then pyReplace output_file "$1" title
  else output_file

/-! ## Supporting lemmas -/

theorem splitChar_ne_nil (sep : Char) : ∀ s : List Char, splitChar sep s ≠ []
  | [] => by simp [splitChar]
  | c :: cs => by simp only [splitChar]; split <;> simp

theorem getLastD_cons_fallback {α : Type} (y : α) (ys : List α) (a b : α) :
    (y :: ys).getLastD a = (y :: ys).getLastD b := rfl

theorem splitChar_cons (sep c : Char) (cs : List Char) :
    splitChar sep (c :: cs) =
      if c = sep then [] :: splitChar sep cs
      else (c :: (splitChar sep cs).headD []) :: (splitChar sep cs).tail := by
  simp only [splitChar]

/-- The last piece of a split is non-empty when the split string is
non-empty and does not end with the separator. -/
theorem splitChar_getLastD_ne_nil (sep : Char) :
    ∀ s : List Char, s ≠ [] → s.getLast? ≠ some sep → (splitChar sep s).getLastD [] ≠ [] := by
  intro s
  induction s with
  | nil => intro h _; exact absurd rfl h
  | cons c cs ih =>
    intro _ hlast
    cases cs with
    | nil =>
      have hc : c ≠ sep := fun hceq => hlast (by rw [hceq]; rfl)
      simp [splitChar, hc, List.getLastD]
    | cons d ds =>
      have hlast2 : (d :: ds).getLast? ≠ some sep := by
        rwa [List.getLast?_cons_cons] at hlast
      have ihr := ih (by simp) hlast2
      obtain ⟨x, xs, hcs⟩ := List.exists_cons_of_ne_nil (splitChar_ne_nil sep (d :: ds))
      rw [hcs] at ihr
      rw [splitChar_cons, hcs]
      split
      · rw [List.getLastD_cons]
        exact ihr
      · simp only [List.headD_cons, List.tail_cons]
        cases xs with
        | nil => simp [List.getLastD]
        | cons y ys =>
          rw [List.getLastD_cons] at ihr ⊢
          rw [getLastD_cons_fallback y ys (c :: x) x]
          exact ihr

theorem matchTitleAt_eq_none {s : List Char} (h : ¬ s.take titleLit.length = titleLit) :
    matchTitleAt s = none := by
  rw [matchTitleAt, if_neg h]

/-- When the literal `title\x7b` occurs nowhere in `s`, the search fails. -/
theorem reSearchTitle_eq_none :
    ∀ s : List Char, containsSub titleLit s = false → reSearchTitle s = none := by
  intro s
  induction s with
  | nil => intro _; rfl
  | cons c cs ih =>
    intro h
    simp only [containsSub, Bool.or_eq_false_iff, decide_eq_false_iff_not] at h
    obtain ⟨h1, h2⟩ := h
    simp only [reSearchTitle]
    rw [matchTitleAt_eq_none h1]
    exact ih h2

theorem cleanupLoop_eq_filter : ∀ l : List DirEntry,
    cleanupLoop l = l.filter (fun e => pyEndsWith e.name ".epub" || !e.regularFile) := by
  intro l
  induction l with
  | nil => rfl
  | cons f fs ih =>
    simp only [cleanupLoop, List.filter_cons]
    by_cases h1 : pyEndsWith f.name ".epub" = false ∧ f.regularFile = true
    · rw [if_pos h1, ih]
      have hp : (pyEndsWith f.name ".epub" || !f.regularFile) = false := by
        simp [h1.1, h1.2]
      rw [hp]
      simp
    · rw [if_neg h1, ih]
      have hp : (pyEndsWith f.name ".epub" || !f.regularFile) = true := by
        cases hf : pyEndsWith f.name ".epub" with
        | true => simp
        | false =>
          cases hreg : f.regularFile with
          | true => exact absurd ⟨hf, hreg⟩ h1
          | false => simp [hreg]
      rw [hp]
      simp

/-! ## Claim theorems -/

/-- C1: the claim states that when the expected filename is a member of the
candidate list, `ensure_latex_element_exists` returns it immediately without
prompting and without raising.  The code instead raises `TypeError` in that
branch: the log call's f-string evaluates `tex_files[element]`, indexing the
candidate list with the expected-name string, before the `return` statement
is reached.  On candidates `["a.tex", "b.tex"]` with expected name `"b.tex"`
the call raises instead of returning `"b.tex"`. -/
theorem ensure_found_element_raises_typeError :
    ensure_latex_element_exists ["a.tex", "b.tex"] "b.tex" 0 =
      (Except.error PyError.typeError, []) := rfl

/-- C2 counterexample: the URL `https://arxiv.org/abs/` passes the accepted
URL check of `download_latex_from_arxiv`, yet its trailing path segment
`arxiv_url.split("/")[-1]` is the empty string. -/
theorem paperId_empty_on_bare_abs_url :
    pyStartsWith "https://arxiv.org/abs/" arxivAbsStart = true ∧
    arxivPaperId "https://arxiv.org/abs/" = "" := by
  constructor <;> decide

/-- C2 (amended): for every accepted URL that does not end with a slash, the
paper identifier `arxiv_url.split("/")[-1]` is a non-empty string. -/
theorem paperId_ne_empty (url : String)
    (h1 : pyStartsWith url arxivAbsStart = true)
    (h2 : pyEndsWith url "/" = false) : arxivPaperId url ≠ "" := by
  have h1' : url.data.take arxivAbsStart.data.length = arxivAbsStart.data :=
    of_decide_eq_true h1
  have hne : url.data ≠ [] := by
    intro hs
    rw [hs, List.take_nil] at h1'
    exact absurd h1'.symm (by decide)
  have h2' : ¬ (url.data.reverse.take ("/" : String).data.length = ("/" : String).data.reverse) :=
    of_decide_eq_false h2
  obtain ⟨c, t, hct⟩ := List.exists_cons_of_ne_nil (l := url.data.reverse) (by simpa using hne)
  have hc : c ≠ '/' := by
    intro hceq
    apply h2'
    rw [hct, hceq]
    rfl
  have hlast : url.data.getLast? = some c := by
    rw [← List.head?_reverse, hct]
    rfl
  have hkey : (splitChar '/' url.data).getLastD [] ≠ [] := by
    apply splitChar_getLastD_ne_nil '/' url.data hne
    rw [hlast]
    simp [hc]
  intro hempty
  exact hkey (congrArg String.data hempty)

/-- C2 witness: a concrete accepted URL not ending in a slash, whose derived
paper identifier is non-empty. -/
theorem paperId_ne_empty_witness :
    pyStartsWith "https://arxiv.org/abs/2503.05613" arxivAbsStart = true ∧
    pyEndsWith "https://arxiv.org/abs/2503.05613" "/" = false ∧
    arxivPaperId "https://arxiv.org/abs/2503.05613" ≠ "" :=
  ⟨by decide, by decide, paperId_ne_empty _ (by decide) (by decide)⟩

/-- C3 counterexample: the document text `title{Foo}` contains no occurrence
of the substring `\title\x7b`, yet `get_title` does not return the input
path: the script's pattern has no backslash before `title`, so the text
matches and the call returns `Foo`. -/
theorem get_title_matches_without_backslash :
    containsSub ("\\title\x7b" : String).data ("title{Foo}" : String).data = false ∧
    get_title "doc.tex" "title{Foo}" ≠ "doc.tex" := by
  constructor <;> decide

/-- C3 (amended): for every document text that contains no occurrence of the
substring `title\x7b` (the literal part of the script's pattern, with no
backslash), `get_title` returns the input path unchanged. -/
theorem get_title_fallback_no_title_brace (path content : String)
    (h : containsSub titleLit content.data = false) : get_title path content = path := by
  simp only [get_title]
  rw [reSearchTitle_eq_none content.data h]

/-- C3 witness: a concrete text without the pattern literal, on which
`get_title` returns the input path. -/
theorem get_title_fallback_no_title_brace_witness :
    containsSub titleLit ("hello world" : String).data = false ∧
    get_title "p.tex" "hello world" = "p.tex" :=
  ⟨by decide, get_title_fallback_no_title_brace "p.tex" "hello world" (by decide)⟩

/-- C4: for every URL that does not start with `https://arxiv.org/abs/`,
`download_latex_from_arxiv` raises `ValueError` with an empty side-effect
trace: no HTTP request is issued and no file or directory is created. -/
theorem download_invalid_url_rejected (url output_dir : String) (http : String → HttpResponse)
    (h : pyStartsWith url arxivAbsStart = false) :
    download_latex_from_arxiv url http output_dir = (Except.error PyError.valueError, []) := by
  simp [download_latex_from_arxiv, h]

/-- C4 witness: a concrete rejected URL. -/
theorem download_invalid_url_rejected_witness :
    pyStartsWith "http://example.com" arxivAbsStart = false ∧
    download_latex_from_arxiv "http://example.com" (fun _ => ⟨404, []⟩) "downloads" =
      (Except.error PyError.valueError, []) :=
  ⟨by decide,
    download_invalid_url_rejected "http://example.com" "downloads" (fun _ => ⟨404, []⟩) (by decide)⟩

/-- C5: for every accepted URL whose HTTP response has a status other than
200, `download_latex_from_arxiv` raises a retrieval error and the target
archive file `output_dir/paper_id.tar.gz` is never written. -/
theorem download_non200_no_archive (url output_dir : String) (http : String → HttpResponse)
    (h1 : pyStartsWith url arxivAbsStart = true)
    (h2 : (http (ePrintUrl url)).status ≠ 200) :
    (download_latex_from_arxiv url http output_dir).1 = Except.error PyError.genericException ∧
    Event.writeFile (output_dir ++ "/" ++ arxivPaperId url ++ ".tar.gz") ∉
      (download_latex_from_arxiv url http output_dir).2 := by
  rw [ePrintUrl] at h2
  simp only [download_latex_from_arxiv, h1, not_true_eq_false, if_false, ite_not]
  rw [if_neg h2]
  constructor
  · rfl
  · simp

/-- C5 witness: a concrete accepted URL with a 404 response. -/
theorem download_non200_no_archive_witness :
    pyStartsWith "https://arxiv.org/abs/1234" arxivAbsStart = true ∧
    ((fun _ => (⟨404, []⟩ : HttpResponse)) (ePrintUrl "https://arxiv.org/abs/1234")).status ≠ 200 ∧
    (download_latex_from_arxiv "https://arxiv.org/abs/1234" (fun _ => ⟨404, []⟩) "downloads").1 =
      Except.error PyError.genericException ∧
    Event.writeFile ("downloads" ++ "/" ++ arxivPaperId "https://arxiv.org/abs/1234" ++ ".tar.gz") ∉
      (download_latex_from_arxiv "https://arxiv.org/abs/1234" (fun _ => ⟨404, []⟩) "downloads").2 := by
  refine ⟨by decide, by decide, ?_, ?_⟩
  · exact (download_non200_no_archive "https://arxiv.org/abs/1234" "downloads"
      (fun _ => ⟨404, []⟩) (by decide) (by decide)).1
  · exact (download_non200_no_archive "https://arxiv.org/abs/1234" "downloads"
      (fun _ => ⟨404, []⟩) (by decide) (by decide)).2

/-- C6: when the expected name is absent from the candidate list
`["a.tex", "b.tex"]`, `ensure_latex_element_exists` prints the prompt and
the enumerated candidates; an input of 1 selects `"b.tex"`, and every input
below 0 or at least the list length (such as 5) raises `ValueError`. -/
theorem ensure_absent_element_prompts (element : String)
    (h : element ∉ (["a.tex", "b.tex"] : List String)) :
    ensure_latex_element_exists ["a.tex", "b.tex"] element 1 =
      (Except.ok "b.tex",
        ["LaTeX element not found in any file.", "Available .tex files:", "0: a.tex", "1: b.tex"]) ∧
    ∀ i : Int, (i < 0 ∨ 2 ≤ i) →
      (ensure_latex_element_exists ["a.tex", "b.tex"] element i).1 =
        Except.error PyError.valueError := by
  constructor
  · simp only [ensure_latex_element_exists]
    rw [if_neg h]
    rfl
  · intro i hi
    simp only [ensure_latex_element_exists]
    rw [if_neg h]
    have hc : i < 0 ∨ ((["a.tex", "b.tex"] : List String).length : Int) ≤ i := by
      simpa using hi
    rw [if_pos hc]

/-- C6 witness: the expected name `main.tex` is absent; input 1 selects
`b.tex` and input 5 raises. -/
theorem ensure_absent_element_prompts_witness :
    ("main.tex" ∉ (["a.tex", "b.tex"] : List String)) ∧
    ensure_latex_element_exists ["a.tex", "b.tex"] "main.tex" 1 =
      (Except.ok "b.tex",
        ["LaTeX element not found in any file.", "Available .tex files:", "0: a.tex", "1: b.tex"]) ∧
    (ensure_latex_element_exists ["a.tex", "b.tex"] "main.tex" 5).1 =
      Except.error PyError.valueError :=
  ⟨by decide, (ensure_absent_element_prompts "main.tex" (by decide)).1,
    (ensure_absent_element_prompts "main.tex" (by decide)).2 5 (by decide)⟩

/-- C7: on the document text `\title{Example Paper}` the extracted title is
`Example Paper`; in general, whenever the title pattern matches, `get_title`
returns the first match's captured group trimmed of surrounding whitespace. -/
theorem get_title_first_match_stripped :
    get_title "doc.tex" "\\title{Example Paper}" = "Example Paper" ∧
    ∀ (path content : String) (g : List Char),
      reSearchTitle content.data = some g → get_title path content = pyStrip (String.mk g) := by
  refine ⟨by decide, ?_⟩
  intro path content g h
  simp only [get_title]
  rw [h]

/-- C7 witness: a concrete matching text, handled through the general part
of the theorem. -/
theorem get_title_first_match_stripped_witness :
    reSearchTitle ("title{Hi}" : String).data = some ['H', 'i'] ∧
    get_title "a.tex" "title{Hi}" = pyStrip (String.mk ['H', 'i']) :=
  ⟨by decide, get_title_first_match_stripped.2 "a.tex" "title{Hi}" ['H', 'i'] (by decide)⟩

/-- C8: on an existing directory, `delete_non_epub_files` keeps exactly the
entries that are not regular files or whose names end in `.epub`; in
particular it deletes `scratch.xml` and preserves `report.epub`. -/
theorem cleanup_deletes_only_non_epub :
    (∀ (entries : List DirEntry) (e : DirEntry),
      e ∈ delete_non_epub_files true entries ↔
        e ∈ entries ∧ (e.regularFile = true → pyEndsWith e.name ".epub" = true)) ∧
    delete_non_epub_files true [⟨"report.epub", true⟩, ⟨"scratch.xml", true⟩] =
      [⟨"report.epub", true⟩] := by
  constructor
  · intro entries e
    simp only [delete_non_epub_files, if_true]
    rw [cleanupLoop_eq_filter, List.mem_filter]
    constructor
    · rintro ⟨he, hp⟩
      refine ⟨he, fun hreg => ?_⟩
      simpa [hreg] using hp
    · rintro ⟨he, hk⟩
      refine ⟨he, ?_⟩
      cases hreg : e.regularFile with
      | false => simp [hreg]
      | true => simp [hk hreg]
  · rfl

/-- C8 witness: the membership characterisation instantiated at a concrete
directory and entry. -/
theorem cleanup_deletes_only_non_epub_witness :
    (⟨"scratch.xml", true⟩ : DirEntry) ∈
        delete_non_epub_files true [⟨"report.epub", true⟩, ⟨"scratch.xml", true⟩] ↔
      (⟨"scratch.xml", true⟩ : DirEntry) ∈
          ([⟨"report.epub", true⟩, ⟨"scratch.xml", true⟩] : List DirEntry) ∧
      ((⟨"scratch.xml", true⟩ : DirEntry).regularFile = true →
        pyEndsWith (⟨"scratch.xml", true⟩ : DirEntry).name ".epub" = true) :=
  cleanup_deletes_only_non_epub.1 [⟨"report.epub", true⟩, ⟨"scratch.xml", true⟩]
    ⟨"scratch.xml", true⟩

/-- C9: with the output template `out/$1.epub` and the title `My Paper`,
the resolved output path is `out/My Paper.epub`. -/
theorem output_template_substitution :
    resolveOutputFile "out/$1.epub" "My Paper" = "out/My Paper.epub" := by
  decide

/-- C10: on an accepted URL whose response status is not 200, the fetch
stage's side-effect trace is exactly the directory creation followed by the
HTTP request: the download directory is created before the request, so it
exists even though the call raises and writes no file. -/
theorem download_mkdir_precedes_request (url output_dir : String) (http : String → HttpResponse)
    (h1 : pyStartsWith url arxivAbsStart = true)
    (h2 : (http (ePrintUrl url)).status ≠ 200) :
    (download_latex_from_arxiv url http output_dir).2 =
      [Event.mkdir output_dir, Event.httpGet (ePrintUrl url)] ∧
    (download_latex_from_arxiv url http output_dir).1 = Except.error PyError.genericException := by
  rw [ePrintUrl] at h2 ⊢
  simp only [download_latex_from_arxiv, h1, not_true_eq_false, if_false, ite_not]
  rw [if_neg h2]
  exact ⟨rfl, rfl⟩

/-- C10 witness: a concrete accepted URL with a 404 response; the trace
still holds the directory creation. -/
theorem download_mkdir_precedes_request_witness :
    pyStartsWith "https://arxiv.org/abs/9876" arxivAbsStart = true ∧
    ((fun _ => (⟨500, []⟩ : HttpResponse)) (ePrintUrl "https://arxiv.org/abs/9876")).status ≠ 200 ∧
    (download_latex_from_arxiv "https://arxiv.org/abs/9876" (fun _ => ⟨500, []⟩) "downloads").2 =
      [Event.mkdir "downloads", Event.httpGet (ePrintUrl "https://arxiv.org/abs/9876")] := by
  refine ⟨by decide, by decide, ?_⟩
  exact (download_mkdir_precedes_request "https://arxiv.org/abs/9876" "downloads"
    (fun _ => ⟨500, []⟩) (by decide) (by decide)).1

end Arxiv2Epub
